import Mathlib

/-!
Verification development for the miwifi Luci client and its capability sweep.

The definitions below are a shallow embedding of the repository sources
src/custom_components/miwifi/luci.py and src/custom_components/miwifi/self_check.py.
Stateful methods of the Python class LuciClient become explicit state-passing
functions; the outcome of each remote HTTP call is an input (the Transport type);
fallible code returns Except.  Python exceptions that a method can raise are the
error values of the Except; exceptions that are caught inside a method do not
surface in its result type.
-/

/-- Decoded JSON scalar values as they appear in the fields the client inspects
(the token field and the code field).  Decoded JSON objects are represented as
key-value lists; json.loads yields objects with pairwise distinct keys, and
lookup takes the first binding, which agrees with Python dict lookup on such
lists. -/
inductive JsonVal where
  | num (n : Int)
  | str (s : String)
  deriving DecidableEq

/-- Python exception kinds that can escape the modelled methods.

Modelled from the spec: exceptions.py is not under src/; per the spec the
error taxonomy is ConnectionError (transport level) and TokenError/AuthError
(application level), both subclasses of a common LuciError.  luciConnection
models LuciConnectionException, luciToken models LuciTokenException.  The
remaining constructors are ordinary Python exceptions that are raised by the
source but are not LuciError subclasses: jsonDecode is json.JSONDecodeError
(a ValueError), typeError is TypeError, attributeError is AttributeError. -/
inductive PyError where
  | luciConnection
  | luciToken
  | jsonDecode
  | typeError
  | attributeError
  deriving DecidableEq

/-- True exactly for the two exception kinds that are LuciError subclasses
(caught by an except LuciError clause). -/
def isLuciError : PyError → Bool
  | PyError.luciConnection => true
  | PyError.luciToken => true
  | _ => false

/-- Outcome of one HTTP call made through the httpx AsyncClient.  httpError
means the library raised an HTTPError (timeout, refused connection, ...);
response carries the HTTP status code and the result of decoding the body with
json.loads: none when the body is not valid JSON, some data when it decodes to
the object data. -/
inductive Transport where
  | httpError
  | response (status : Nat) (body : Option (List (String × JsonVal)))
  deriving DecidableEq

/-- State of a LuciClient instance (luci.py).  url is self._url, password is
self._password (None by default), token is self._token (None until a login
succeeds; the source stores data["token"] without a type check, hence a
JsonVal).  The AsyncClient handle, self._ip and self._timeout are omitted:
they do not affect any observable modelled here (the transport outcome is an
input). -/
structure LuciClient where
  url : String
  password : Option String
  token : Option JsonVal
  deriving DecidableEq

/-- Python str(x) as used by "...".format(...) for the values that can occur
in the token slot. -/
def pyStr : JsonVal → String
  | JsonVal.num n => toString n
  | JsonVal.str s => s

/-- Python str(x) for an optional value: None renders as the string None, as
in ";stok=...".format(self._token) when self._token is None. -/
def pyStrOpt : Option JsonVal → String
  | none => "None"
  | some v => pyStr v

/-- URL built by LuciClient.get (luci.py lines 133-138):
"{}/{}api/{}".format(self._url, ";stok={}/".format(self._token) if use_stok
else "", path). -/
def LuciClient.getUrl (self : LuciClient) (path : String) (useStok : Bool) : String :=
  self.url ++ "/" ++ (if useStok then ";stok=" ++ pyStrOpt self.token ++ "/" else "") ++ "api/" ++ path

/-- LuciClient.get (luci.py lines 126-155).  The try block issues the GET and
decodes the body; its except clause catches HTTPError only, so a json.loads
failure escapes as JSONDecodeError (a ValueError, not an HTTPError).  After a
successful decode: if "code" not in data or data["code"] > 0 the method raises
LuciTokenException, otherwise it returns data.  Comparing a non-numeric value
with 0 raises TypeError in Python 3.  The HTTP status code is never consulted.
The method does not modify the client state. -/
def LuciClient.get (self : LuciClient) (path : String) (useStok : Bool) (t : Transport) :
    Except PyError (List (String × JsonVal)) :=
  match t with
  | Transport.httpError => Except.error PyError.luciConnection
  | Transport.response _ body =>
    match body with
    | none => Except.error PyError.jsonDecode
    | some data =>
      match data.lookup "code" with
      | none => Except.error PyError.luciToken
      | some (JsonVal.num n) =>
        if 0 < n then Except.error PyError.luciToken else Except.ok data
      | some (JsonVal.str _) => Except.error PyError.typeError

/-- LuciClient.login (luci.py lines 66-101).  The nonce is generated from the
machine address, the clock and a random draw; it is environment-dependent and
therefore an input here.  Building the form data computes
generate_password_hash(nonce, self._password); when self._password is None the
string concatenation password + CLIENT_PUBLIC_KEY raises TypeError before any
request is made (the except clause catches HTTPError only).  On HTTPError the
method raises LuciConnectionException; a json.loads failure escapes as
JSONDecodeError; then if response.status_code != 200 or "token" not in data it
raises LuciTokenException; otherwise it stores data["token"] in self._token
(overwriting any prior token) and returns data. -/
def LuciClient.login (self : LuciClient) (nonce : String) (t : Transport) :
    LuciClient × Except PyError (List (String × JsonVal)) :=
  match self.password with
  | none => (self, Except.error PyError.typeError)
  | some _ =>
    match t with
    | Transport.httpError => (self, Except.error PyError.luciConnection)
    | Transport.response status body =>
      match body with
      | none => (self, Except.error PyError.jsonDecode)
      | some data =>
        match data.lookup "token" with
        | none => (self, Except.error PyError.luciToken)
        | some tok =>
          if status = 200 then
            (⟨self.url, self.password, some tok⟩, Except.ok data)
          else
            (self, Except.error PyError.luciToken)

/-- LuciClient.logout (luci.py lines 103-124).  With no token held it returns
immediately.  Otherwise it issues a GET to the logout URL inside a try block
whose except clause catches HTTPError and only logs it.  No statement of the
method assigns self._token, so the state is returned unchanged; the second
component is the exception surfaced to the caller, always none. -/
def LuciClient.logout (self : LuciClient) (t : Transport) : LuciClient × Option PyError :=
  match self.token with
  | none => (self, none)
  | some _ =>
    match t with
    | Transport.httpError => (self, none)
    | Transport.response _ _ => (self, none)

/-- The catalog SELF_CHECK_METHODS of self_check.py lines 17-38: pairs of an
endpoint code and either a LuciClient method name to probe or a sentinel
status symbol. -/
def SELF_CHECK_METHODS : List (String × String) := [
  ("xqsystem/login", "🟢"),
  ("xqsystem/init_info", "🟢"),
  ("misystem/status", "status"),
  ("xqnetwork/mode", "mode"),
  ("misystem/topo_graph", "topo_graph"),
  ("xqsystem/check_rom_update", "rom_update"),
  ("xqnetwork/wan_info", "wan_info"),
  ("misystem/led", "led"),
  ("xqnetwork/wifi_detail_all", "wifi_detail_all"),
  ("xqnetwork/wifi_diag_detail_all", "wifi_diag_detail_all"),
  ("xqnetwork/avaliable_channels", "avaliable_channels"),
  ("xqnetwork/wifi_connect_devices", "wifi_connect_devices"),
  ("misystem/devicelist", "device_list"),
  ("xqnetwork/wifiap_signal", "wifi_ap_signal"),
  ("misystem/newstatus", "new_status"),
  ("xqsystem/reboot", "⚪"),
  ("xqsystem/upgrade_rom", "⚪"),
  ("xqsystem/flash_permission", "⚪"),
  ("xqnetwork/set_wifi", "⚪"),
  ("xqnetwork/set_wifi_without_restart", "⚪")]

/-- The three reserved sentinel status symbols of self_check.py line 54:
method in a list of the known-good, known-bad and mutating markers. -/
def isSentinel (m : String) : Bool := m == "🟢" || m == "🔴" || m == "⚪"

/-- Every attribute a LuciClient instance has in luci.py: the class-level and
instance-level fields and the defined methods.  getattr(client, name) raises
AttributeError exactly when name is not in this list.  Note that neither ip
nor any of rom_update, wifi_diag_detail_all, avaliable_channels and
wifi_ap_signal is an attribute. -/
def luciClientAttrs : List String := [
  "_client", "_ip", "_password", "_timeout", "_token", "_url",
  "login", "logout", "get",
  "topo_graph", "init_info", "status", "new_status", "mode", "wifi_status",
  "wifi_detail_all", "wan_info", "reboot", "led", "wifi_turn_on",
  "wifi_turn_off", "device_list", "wifi_connect_devices",
  "sha1", "get_mac_address", "generate_nonce", "generate_password_hash"]

/-- The no-argument API methods of LuciClient, each a thin call through
LuciClient.get: method name mapped to the literal path and use_stok flag it
passes (luci.py lines 157-260; topo_graph passes use_stok False, led with its
default argument None passes the bare path).  Every non-sentinel method name
of SELF_CHECK_METHODS is either in this table or not an attribute of
LuciClient at all, so on the sweep's inputs a failed table lookup coincides
with getattr raising AttributeError. -/
def apiMethods : List (String × String × Bool) := [
  ("topo_graph", "misystem/topo_graph", false),
  ("init_info", "xqsystem/init_info", true),
  ("status", "misystem/status", true),
  ("new_status", "misystem/newstatus", true),
  ("mode", "xqnetwork/mode", true),
  ("wifi_status", "xqnetwork/wifi_status", true),
  ("wifi_detail_all", "xqnetwork/wifi_detail_all", true),
  ("wan_info", "xqnetwork/wan_info", true),
  ("reboot", "xqsystem/reboot", true),
  ("led", "misystem/led", true),
  ("device_list", "misystem/devicelist", true),
  ("wifi_connect_devices", "xqnetwork/wifi_connect_devices", true)]

/-- Insertion into a Python dict represented as an insertion-ordered key-value
list: an existing key is overwritten in place, a new key is appended. -/
def dictSet : List (String × String) → String → String → List (String × String)
  | [], k, v => [(k, v)]
  | (k1, v1) :: rest, k, v =>
    if k1 = k then (k, v) :: rest else (k1, v1) :: dictSet rest k v

/-- The for-loop of async_self_check (self_check.py lines 53-66), processing
the catalog entries in order.  ts gives the router's answer to the n-th
network call (calls are sequential: the loop awaits each action before the
next entry).  data is the dict built so far, calls the (path, use_stok) pairs
of the dispatcher calls issued so far, in order.  A sentinel entry records its
symbol with no call.  Otherwise getattr(client, method) resolves the method:
when it is one of the no-argument API methods the dispatcher call is made and
a success records the green symbol, a LuciError records the red one, while any
other escaping exception propagates; when the name is not an attribute of
LuciClient, getattr raises AttributeError and the loop aborts.  A client
attribute that is not a no-argument API method (never the case in
SELF_CHECK_METHODS) lies outside the modelled fragment and is mapped to
typeError; no theorem below concerns that branch. -/
def selfCheckLoop (c : LuciClient) (ts : Nat → Transport) :
    List (String × String) → Nat → List (String × String) → List (String × Bool) →
      Except PyError (List (String × String)) × List (String × Bool)
  | [], _, data, calls => (Except.ok data, calls)
  | (code, method) :: rest, n, data, calls =>
    if isSentinel method then
      selfCheckLoop c ts rest n (dictSet data code method) calls
    else
      match apiMethods.lookup method with
      | some (path, useStok) =>
        match c.get path useStok (ts n) with
        | Except.ok _ =>
          selfCheckLoop c ts rest (n + 1) (dictSet data code "🟢") (calls ++ [(path, useStok)])
        | Except.error e =>
          if isLuciError e then
            selfCheckLoop c ts rest (n + 1) (dictSet data code "🔴") (calls ++ [(path, useStok)])
          else
            (Except.error e, calls ++ [(path, useStok)])
      | none =>
        if method ∈ luciClientAttrs then
          (Except.error PyError.typeError, calls)
        else
          (Except.error PyError.attributeError, calls)

/-- async_self_check (self_check.py lines 44-94).  Runs the catalog loop; when
the loop completes, the next statement (line 68) evaluates the title f-string,
which reads client.ip — not an attribute of LuciClient — so the function
raises AttributeError there and the remaining rendering (check-list message,
issue link, notification) is dead code, not modelled.  The first component is
the exception the call raises (it can never be ok), the second the dispatcher
calls issued. -/
def async_self_check (c : LuciClient) (ts : Nat → Transport) (catalog : List (String × String)) :
    Except PyError (List (String × String)) × List (String × Bool) :=
  match selfCheckLoop c ts catalog 0 [] [] with
  | (Except.ok data, calls) =>
    if "ip" ∈ luciClientAttrs then (Except.ok data, calls)
    else (Except.error PyError.attributeError, calls)
  | (Except.error e, calls) => (Except.error e, calls)

/-- A router that answers every call with HTTP 200 and the body code 0: every
probe that is actually issued succeeds. -/
def okTransports : Nat → Transport :=
  fun _ => Transport.response 200 (some [("code", JsonVal.num 0)])

/-- A concrete client used in the closed evaluations below: logged in, token
held. -/
def exampleClient : LuciClient := ⟨"http://192.168.31.1", some "pass", some (JsonVal.str "tok")⟩

/-- A concrete client before any successful login: no token held. -/
def exampleClientNoToken : LuciClient := ⟨"http://192.168.31.1", some "pass", none⟩

/-- Truncation to 32 bits. -/
def m32 (x : Nat) : Nat := x % 4294967296

/-- Left rotation of a 32-bit word by n bits (0 < n < 32, x < 2^32). -/
def rotl32 (n x : Nat) : Nat := ((x <<< n) ||| (x >>> (32 - n))) % 4294967296

/-- UTF-8 encoding of one code point, as Python str.encode produces it. -/
def utf8Bytes (c : Nat) : List Nat :=
  if c < 128 then [c]
  else if c < 2048 then [192 + c / 64, 128 + c % 64]
  else if c < 65536 then [224 + c / 4096, 128 + (c / 64) % 64, 128 + c % 64]
  else [240 + c / 262144, 128 + (c / 4096) % 64, 128 + (c / 64) % 64, 128 + c % 64]

/-- UTF-8 byte sequence of a string (Python key.encode()). -/
def strBytes (s : String) : List Nat :=
  s.data.foldr (fun c acc => utf8Bytes c.toNat ++ acc) []

/-- Big-endian 8-byte encoding of a length in bits, for SHA-1 padding. -/
def be64Bytes (n : Nat) : List Nat :=
  [(n >>> 56) % 256, (n >>> 48) % 256, (n >>> 40) % 256, (n >>> 32) % 256,
   (n >>> 24) % 256, (n >>> 16) % 256, (n >>> 8) % 256, n % 256]

/-- SHA-1 message padding: a 128 byte, zero bytes up to 56 mod 64, then the
bit length big-endian. -/
def sha1Pad (msg : List Nat) : List Nat :=
  msg ++ [128] ++ List.replicate ((120 - ((msg.length + 1) % 64)) % 64) 0
      ++ be64Bytes (msg.length * 8)

/-- Split a byte list into successive 64-byte blocks; the fuel argument makes
the recursion structural (any fuel at least the list length is enough). -/
def chunks64Aux : Nat → List Nat → List (List Nat)
  | _, [] => []
  | 0, _ :: _ => []
  | fuel + 1, x :: xs => ((x :: xs).take 64) :: chunks64Aux fuel ((x :: xs).drop 64)

/-- Split a byte list into successive 64-byte blocks. -/
def chunks64 (l : List Nat) : List (List Nat) := chunks64Aux l.length l

/-- Big-endian packing of bytes into 32-bit words. -/
def be32Words : List Nat → List Nat
  | a :: b :: c :: d :: rest => (a * 16777216 + b * 65536 + c * 256 + d) :: be32Words rest
  | _ => []

/-- Extension of the 16 block words to the 80 round words of SHA-1. -/
def sha1ExtendW (w0 : Array Nat) : Array Nat :=
  (List.range 64).foldl
    (fun w i =>
      w.push (rotl32 1 ((w.getD (i + 13) 0) ^^^ (w.getD (i + 8) 0) ^^^ (w.getD (i + 2) 0) ^^^ (w.getD i 0))))
    w0

/-- SHA-1 round function. -/
def sha1F (t b c d : Nat) : Nat :=
  if t < 20 then (b &&& c) ||| ((b ^^^ 4294967295) &&& d)
  else if t < 40 then b ^^^ c ^^^ d
  else if t < 60 then (b &&& c) ||| (b &&& d) ||| (c &&& d)
  else b ^^^ c ^^^ d

/-- SHA-1 round constants. -/
def sha1K (t : Nat) : Nat :=
  if t < 20 then 1518500249
  else if t < 40 then 1859775393
  else if t < 60 then 2400959708
  else 3395469782

/-- The 80 SHA-1 rounds over one block's words. -/
def sha1Rounds (w : Array Nat) (h : Nat × Nat × Nat × Nat × Nat) : Nat × Nat × Nat × Nat × Nat :=
  (List.range 80).foldl
    (fun st t =>
      let (a, b, c, d, e) := st
      (m32 (rotl32 5 a + sha1F t b c d + e + sha1K t + w.getD t 0), a, rotl32 30 b, c, d))
    h

/-- Compression of one 64-byte block into the running SHA-1 state. -/
def sha1Block (h : Nat × Nat × Nat × Nat × Nat) (block : List Nat) : Nat × Nat × Nat × Nat × Nat :=
  let w := sha1ExtendW (be32Words block).toArray
  let (a, b, c, d, e) := sha1Rounds w h
  let (h0, h1, h2, h3, h4) := h
  (m32 (h0 + a), m32 (h1 + b), m32 (h2 + c), m32 (h3 + d), m32 (h4 + e))

/-- SHA-1 digest of a byte sequence as five 32-bit words. -/
def sha1Digest (msg : List Nat) : Nat × Nat × Nat × Nat × Nat :=
  (chunks64 (sha1Pad msg)).foldl sha1Block
    (1732584193, 4023233417, 2562383102, 271733878, 3285377520)

/-- Lowercase hexadecimal digit. -/
def hexDigit (n : Nat) : Char :=
  if n < 10 then Char.ofNat (48 + n) else Char.ofNat (87 + n)

/-- Eight-digit lowercase hexadecimal rendering of a 32-bit word. -/
def hex8 (n : Nat) : String :=
  String.mk ((List.range 8).map (fun i => hexDigit ((n >>> ((7 - i) * 4)) % 16)))

/-- Lowercase hexadecimal SHA-1 digest of a byte sequence. -/
def sha1Hex (msg : List Nat) : String :=
  match sha1Digest msg with
  | (h0, h1, h2, h3, h4) => hex8 h0 ++ hex8 h1 ++ hex8 h2 ++ hex8 h3 ++ hex8 h4

/-- LuciClient.sha1 (luci.py lines 272-280): hashlib.sha1(key.encode()).hexdigest(). -/
def LuciClient.sha1 (key : String) : String := sha1Hex (strBytes key)

/-- LuciClient.generate_password_hash (luci.py lines 308-316):
self.sha1(nonce + self.sha1(password + CLIENT_PUBLIC_KEY)).  It is an instance
method but reads nothing from self.  CLIENT_PUBLIC_KEY lives in const.py,
which is not under src/; modelled from the spec as a fixed public constant, it
is taken here as the explicit argument publicKey, so every statement below
holds for the fixed constant in particular. -/
def LuciClient.generate_password_hash (self : LuciClient) (publicKey nonce password : String) :
    String :=
  LuciClient.sha1 (nonce ++ LuciClient.sha1 (password ++ publicKey))

/-! Validation of the SHA-1 embedding against standard known-answer vectors
(the same values hashlib.sha1 produces). -/

set_option maxRecDepth 100000 in
/-- SHA-1 known-answer vector for the empty string. -/
theorem sha1_vector_empty : LuciClient.sha1 "" = "da39a3ee5e6b4b0d3255bfef95601890afd80709" := by
  rfl

set_option maxRecDepth 100000 in
/-- SHA-1 known-answer vector for the string abc. -/
theorem sha1_vector_abc : LuciClient.sha1 "abc" = "a9993e364706816aba3e25717850c26c9cd0d89d" := by
  rfl

set_option maxRecDepth 200000 in
/-- SHA-1 known-answer vector for a two-block message (60 bytes of the letter a). -/
theorem sha1_vector_two_blocks :
    LuciClient.sha1 (String.mk (List.replicate 60 'a')) =
      "13d956033d9af449bfe2c4ef78c17c20469c4bf1" := by
  rfl

/-- String literal folding helper for URL equations. -/
theorem append_fold_stok (x : String) : "/" ++ (";stok=" ++ x) = "/;stok=" ++ x := by
  rw [← String.append_assoc]; rfl

/-- String literal folding helper for URL equations. -/
theorem append_fold_api (x : String) : "/" ++ ("api/" ++ x) = "/api/" ++ x := by
  rw [← String.append_assoc]; rfl

/-- String literal folding helper for URL equations. -/
theorem append_fold_none_api (x : String) : "None" ++ ("/api/" ++ x) = "None/api/" ++ x := by
  rw [← String.append_assoc]; rfl

/-- String literal folding helper for URL equations. -/
theorem append_fold_stok_none (x : String) :
    "/;stok=" ++ ("None/api/" ++ x) = "/;stok=None/api/" ++ x := by
  rw [← String.append_assoc]; rfl

/-- Normal form of the token-qualified URL of LuciClient.get. -/
theorem getUrl_stok_eq (c : LuciClient) (path : String) :
    c.getUrl path true = c.url ++ ("/;stok=" ++ (pyStrOpt c.token ++ ("/api/" ++ path))) := by
  simp [LuciClient.getUrl, String.append_assoc, append_fold_stok, append_fold_api]

/-- C8: for every nonce string and every password string (and every fixed
public constant), the credential hash equals
sha1(nonce || sha1(password || PUBLIC_KEY)); it is deterministic — the same
inputs yield bit-for-bit the same output on any client instance — and it has
no side effects on session state, being a pure function that ignores the self
argument. -/
theorem generate_password_hash_spec (self other : LuciClient) (publicKey nonce password : String) :
    LuciClient.generate_password_hash self publicKey nonce password =
      LuciClient.sha1 (nonce ++ LuciClient.sha1 (password ++ publicKey)) ∧
    LuciClient.generate_password_hash self publicKey nonce password =
      LuciClient.generate_password_hash other publicKey nonce password :=
  ⟨rfl, rfl⟩

/-- C2 (counterexample): a client holding token tok calls logout and the
remote call fails with an HTTPError.  Logout indeed raises nothing, but the
stored session token afterwards is still tok — it is not cleared, contrary to
the claim that after logout the token is absent. -/
theorem logout_does_not_clear_token_cex :
    (exampleClient.logout Transport.httpError).2 = none ∧
    (exampleClient.logout Transport.httpError).1.token = some (JsonVal.str "tok") ∧
    (exampleClient.logout Transport.httpError).1.token ≠ none := by
  exact ⟨rfl, rfl, by decide⟩

/-- C2 (amended): for every session state and every transport outcome, logout
never raises to the caller and leaves the client state — in particular the
stored token — exactly unchanged; it does not clear the token. -/
theorem logout_never_raises_and_preserves_state (c : LuciClient) (t : Transport) :
    c.logout t = (c, none) := by
  obtain ⟨u, p, tok⟩ := c
  cases tok <;> cases t <;> rfl

/-- C3 (evaluation at the failing input): a GET answered with HTTP 200 and a
body json.loads cannot decode makes LuciClient.get fail with JSONDecodeError
(a ValueError), which is not the ConnectionError classification the claim
requires — it is not even a LuciError. -/
theorem get_undecodable_body_raises_value_error :
    exampleClient.get "misystem/status" true (Transport.response 200 none) =
      Except.error PyError.jsonDecode ∧
    PyError.jsonDecode ≠ PyError.luciConnection ∧
    isLuciError PyError.jsonDecode = false := by
  exact ⟨rfl, by decide, rfl⟩

/-- C5: for every base, held token value and path, the dispatcher URL is
base/;stok=token/api/path when useToken is true, and base/api/path — with no
token segment — when useToken is false, whatever the token state. -/
theorem get_url_construction (base tok path : String) (pw : Option String)
    (anyToken : Option JsonVal) :
    LuciClient.getUrl ⟨base, pw, some (JsonVal.str tok)⟩ path true =
      base ++ "/;stok=" ++ tok ++ "/api/" ++ path ∧
    LuciClient.getUrl ⟨base, pw, anyToken⟩ path false = base ++ "/api/" ++ path := by
  constructor
  · simp [LuciClient.getUrl, pyStrOpt, pyStr, String.append_assoc, append_fold_stok,
      append_fold_api]
  · simp [LuciClient.getUrl, String.append_assoc, append_fold_api]

/-- C6 (counterexample): with no token held, the URL built for a
useToken=true call carries the literal string None in the stok segment —
Python's str rendering of the absent token — not an absent and not an empty
token segment as the claim states. -/
theorem get_url_none_token_cex :
    exampleClientNoToken.getUrl "misystem/status" true =
      "http://192.168.31.1/;stok=None/api/misystem/status" ∧
    exampleClientNoToken.getUrl "misystem/status" true ≠
      "http://192.168.31.1/;stok=/api/misystem/status" ∧
    exampleClientNoToken.getUrl "misystem/status" true ≠
      "http://192.168.31.1/api/misystem/status" := by
  exact ⟨rfl, by decide, by decide⟩

/-- C6 (amended): for every get call made with useToken=true before any
successful login (no token held), the constructed URL's stok segment carries
the literal string None, and an application-level rejection in the decoded
reply (a positive code value) is still classified as TokenError. -/
theorem get_no_token_url_and_token_error (c : LuciClient) (htok : c.token = none)
    (path : String) (status : Nat) (data : List (String × JsonVal)) (n : Int)
    (hcode : data.lookup "code" = some (JsonVal.num n)) (hn : 0 < n) :
    c.getUrl path true = c.url ++ "/;stok=None/api/" ++ path ∧
    c.get path true (Transport.response status (some data)) = Except.error PyError.luciToken := by
  constructor
  · rw [getUrl_stok_eq, htok]
    simp [pyStrOpt, String.append_assoc, append_fold_none_api, append_fold_stok_none]
  · simp [LuciClient.get, hcode, hn]

/-- C6 witness: a concrete pre-login client probing misystem/status against a
server replying code 1. -/
theorem get_no_token_url_and_token_error_witness :
    exampleClientNoToken.getUrl "misystem/status" true =
      "http://192.168.31.1" ++ "/;stok=None/api/" ++ "misystem/status" ∧
    exampleClientNoToken.get "misystem/status" true
        (Transport.response 200 (some [("code", JsonVal.num 1)])) =
      Except.error PyError.luciToken :=
  get_no_token_url_and_token_error exampleClientNoToken rfl "misystem/status" 200
    [("code", JsonVal.num 1)] 1 rfl (by decide)

/-- C7 (counterexample): a successfully decoded body whose code field holds
the string x is neither answered with TokenError nor returned unchanged: the
comparison code > 0 raises TypeError, which is not a LuciError at all. -/
theorem get_nonnumeric_code_cex :
    exampleClient.get "misystem/status" true
        (Transport.response 200 (some [("code", JsonVal.str "x")])) =
      Except.error PyError.typeError ∧
    PyError.typeError ≠ PyError.luciToken ∧
    isLuciError PyError.typeError = false := by
  exact ⟨rfl, by decide, rfl⟩

/-- C7 (amended): for every successfully decoded body, a missing code field
yields TokenError; a numeric code value yields TokenError when positive and
the body returned unchanged otherwise; a non-numeric code value raises
TypeError instead.  The HTTP status is never consulted. -/
theorem get_code_classification (c : LuciClient) (path : String) (us : Bool) (status : Nat)
    (data : List (String × JsonVal)) :
    (data.lookup "code" = none →
      c.get path us (Transport.response status (some data)) = Except.error PyError.luciToken) ∧
    (∀ n : Int, data.lookup "code" = some (JsonVal.num n) →
      (0 < n →
        c.get path us (Transport.response status (some data)) = Except.error PyError.luciToken) ∧
      (n ≤ 0 →
        c.get path us (Transport.response status (some data)) = Except.ok data)) ∧
    (∀ s : String, data.lookup "code" = some (JsonVal.str s) →
      c.get path us (Transport.response status (some data)) = Except.error PyError.typeError) := by
  refine ⟨fun h => by simp [LuciClient.get, h], fun n h => ⟨fun hn => ?_, fun hn => ?_⟩,
    fun s h => by simp [LuciClient.get, h]⟩
  · simp [LuciClient.get, h, hn]
  · have hn2 : ¬ 0 < n := by omega
    simp [LuciClient.get, h, hn2]

/-- C7 witness: a body with code 0 is returned unchanged. -/
theorem get_code_classification_witness :
    exampleClient.get "misystem/status" true
        (Transport.response 200 (some [("code", JsonVal.num 0)])) =
      Except.ok [("code", JsonVal.num 0)] :=
  ((get_code_classification exampleClient "misystem/status" true 200
      [("code", JsonVal.num 0)]).2.1 0 rfl).2 (by decide)

/-- C4 (counterexample): the server answers a login with HTTP 201 — a 2xx
success status — and a body containing a token.  The claim requires login to
store that token and return the payload; the source tests status_code != 200,
so it raises LuciTokenException and stores nothing. -/
theorem login_status_201_cex :
    (exampleClientNoToken.login "nonce"
        (Transport.response 201 (some [("token", JsonVal.str "newtok")]))).2 =
      Except.error PyError.luciToken ∧
    (exampleClientNoToken.login "nonce"
        (Transport.response 201 (some [("token", JsonVal.str "newtok")]))).1 =
      exampleClientNoToken := by
  exact ⟨rfl, rfl⟩

/-- C4 (amended): for every login attempt where the server answered with a
decodable body: if the body lacks a token field or the status is not 200,
login fails with AuthError (LuciTokenException) and never returns a value; if
the body contains a token and the status is exactly 200, login stores that
token in the session and returns the decoded payload, overwriting any prior
token unconditionally. -/
theorem login_amended_spec (c : LuciClient) (pw : String) (hpw : c.password = some pw)
    (nonce : String) (status : Nat) (data : List (String × JsonVal)) :
    (data.lookup "token" = none →
      c.login nonce (Transport.response status (some data)) =
        (c, Except.error PyError.luciToken)) ∧
    (∀ tok, data.lookup "token" = some tok →
      (status = 200 →
        c.login nonce (Transport.response status (some data)) =
          (⟨c.url, c.password, some tok⟩, Except.ok data)) ∧
      (status ≠ 200 →
        c.login nonce (Transport.response status (some data)) =
          (c, Except.error PyError.luciToken))) := by
  refine ⟨fun h => by simp [LuciClient.login, hpw, h],
    fun tok h => ⟨fun hs => by simp [LuciClient.login, hpw, h, hs],
      fun hs => by simp [LuciClient.login, hpw, h, hs]⟩⟩

/-- C4 witness: a 200 answer with a token is stored and returned. -/
theorem login_amended_spec_witness :
    exampleClientNoToken.login "n" (Transport.response 200 (some [("token", JsonVal.str "t2")])) =
      (⟨"http://192.168.31.1", some "pass", some (JsonVal.str "t2")⟩,
        Except.ok [("token", JsonVal.str "t2")]) :=
  ((login_amended_spec exampleClientNoToken "pass" rfl "n" 200
      [("token", JsonVal.str "t2")]).2 (JsonVal.str "t2") rfl).1 rfl

/-- C10: for every login attempt that fails — with any exception kind, which
includes ConnectionError and AuthError/TokenError — the client state, and in
particular the stored session token, is left exactly as it was before the
attempt: the token is only written on the full-success path. -/
theorem login_error_preserves_state (c : LuciClient) (nonce : String) (t : Transport)
    (e : PyError) (h : (c.login nonce t).2 = Except.error e) :
    (c.login nonce t).1 = c := by
  obtain ⟨u, p, tok⟩ := c
  cases p with
  | none => rfl
  | some pw =>
    cases t with
    | httpError => rfl
    | response status body =>
      cases body with
      | none => rfl
      | some data =>
        cases hl : data.lookup "token" with
        | none => simp [LuciClient.login, hl]
        | some v =>
          by_cases hs : status = 200
          · exact absurd h (by simp [LuciClient.login, hl, hs])
          · simp [LuciClient.login, hl, hs]

/-- C10 witness: a transport failure leaves the client unchanged. -/
theorem login_error_preserves_state_witness :
    (exampleClient.login "n" Transport.httpError).1 = exampleClient :=
  login_error_preserves_state exampleClient "n" Transport.httpError PyError.luciConnection rfl

/-- C1 (evaluation at the failing input): running the capability sweep with
the repository's own catalog SELF_CHECK_METHODS, against a client as defined
in luci.py and a router that answers every issued call successfully, does not
probe the 13 non-sentinel entries once each: getattr(client, "rom_update")
raises AttributeError at the sixth entry, after only the three dispatcher
calls misystem/status, xqnetwork/mode and misystem/topo_graph (the last with
use_stok False), and no check-list report is ever rendered. -/
theorem self_check_aborts_with_attribute_error :
    async_self_check exampleClient okTransports SELF_CHECK_METHODS =
      (Except.error PyError.attributeError,
        [("misystem/status", true), ("xqnetwork/mode", true), ("misystem/topo_graph", false)]) := by
  rfl

/-- C9 (evaluation at the failing input): the catalog entry
(xqsystem/check_rom_update, rom_update) is not marked with a sentinel status,
yet its dispatcher call is never invoked and no status is recorded for it:
rom_update is not an attribute of LuciClient, so the sweep aborts with
AttributeError, having issued only three of the catalog's thirteen probeable
calls. -/
theorem self_check_rom_update_never_probed :
    ("xqsystem/check_rom_update", "rom_update") ∈ SELF_CHECK_METHODS ∧
    isSentinel "rom_update" = false ∧
    "rom_update" ∉ luciClientAttrs ∧
    (SELF_CHECK_METHODS.filter (fun e => !isSentinel e.2)).length = 13 ∧
    (async_self_check exampleClient okTransports SELF_CHECK_METHODS).1 =
      Except.error PyError.attributeError ∧
    ((async_self_check exampleClient okTransports SELF_CHECK_METHODS).2.map Prod.fst) =
      ["misystem/status", "xqnetwork/mode", "misystem/topo_graph"] := by
  exact ⟨by decide, rfl, by decide, by decide, rfl, rfl⟩
